import Mathlib

/-!
Shallow embedding of `src/py/pysparkling/context.py` (Python 2).

The module is a thin bridge between a Spark session (pyspark) and an H2O
analytics cluster reached through a py4j gateway.  The embedding models the
Python 2 runtime values the module inspects (`str`, `bool`, `int`, `long`,
`float`), the dispatch logic of `as_h2o_frame`, the monkey-patched frame
methods (`determine_java_vec_type`, `get_java_h2o_frame`), `as_spark_frame`,
`stop`, `__str__` and the static factory `getOrCreate`.  External calls
(the `fc._as_h2o_frame_from_*` converters and `self._jhc.*` remote calls)
are recorded as elements of a trace rather than executed, since they run in
the external JVM engines.
-/

namespace PySparkling

/-- Python 2 runtime values relevant to the dispatch in `context.py`.
`pyint` is the bounded machine `int`, `pylong` the arbitrary-precision
`long`; they are distinct runtime types in Python 2.  The payload of
`pyfloat` is an opaque stand-in for the float value: the code only ever
asks `isinstance` questions of floats, never arithmetic ones. -/
inductive PyVal where
  | pystr (s : String)
  | pybool (b : Bool)
  | pyint (n : Int)
  | pylong (n : Int)
  | pyfloat (v : Int)
  | pyobj (tag : String)
  deriving DecidableEq, Repr

/-- Python exceptions raised by the modelled code paths. -/
inductive PyErr where
  | valueError (msg : String)
  | nameError (msg : String)
  deriving DecidableEq, Repr

/-- Model of `isinstance(v, str)` in Python 2. -/
def isinstStr : PyVal → Bool
  | .pystr _ => true
  | _ => false

/-- Model of `isinstance(v, bool)` in Python 2. -/
def isinstBool : PyVal → Bool
  | .pybool _ => true
  | _ => false

/-- Model of `isinstance(v, int)` in Python 2: `bool` is a subclass of `int`,
while `long` is a separate type. -/
def isinstInt : PyVal → Bool
  | .pyint _ => true
  | .pybool _ => true
  | _ => false

/-- Model of `isinstance(v, long)` in Python 2. -/
def isinstLong : PyVal → Bool
  | .pylong _ => true
  | _ => false

/-- Model of `isinstance(v, float)` in Python 2. -/
def isinstFloat : PyVal → Bool
  | .pyfloat _ => true
  | _ => false

/-- Model of `isinstance(v, (str, int, bool, long, float))`: the tuple test at
line 52 of `context.py`. -/
def isSimple (v : PyVal) : Bool :=
  isinstStr v || isinstInt v || isinstBool v || isinstLong v || isinstFloat v

/-- Numeric value of a Python number (`bool` counts as 0/1, as in Python 2). -/
def pyNumVal : PyVal → Option Int
  | .pyint n => some n
  | .pylong n => some n
  | .pybool b => some (if b then 1 else 0)
  | .pyfloat v => some v
  | _ => none

/-- Python 2 `a > b`.  Numbers compare by value; strings lexicographically;
in the remaining cross-type cases CPython 2 orders numbers below all other
types (those cases are never reached on the homogeneous collections the
theorems speak about). -/
def pyGt (a b : PyVal) : Bool :=
  match pyNumVal a, pyNumVal b with
  | some x, some y => decide (x > y)
  | some _, none => false
  | none, some _ => true
  | none, none =>
    match a, b with
    | .pystr s, .pystr t => decide (t < s)
    | .pystr _, _ => true
    | _, _ => false

/-- Model of `rdd.first()` in pyspark: the first element, raising
`ValueError("RDD is empty")` on an empty collection. -/
def rddFirst : List PyVal → Except PyErr PyVal
  | [] => .error (.valueError "RDD is empty")
  | x :: _ => .ok x

/-- Model of `rdd.max()` in pyspark: `reduce(max)` over the elements, where the
builtin `max(acc, y)` keeps `acc` unless `y` is strictly greater. -/
def rddMax : List PyVal → Except PyErr PyVal
  | [] => .error (.valueError "Can not reduce() empty RDD")
  | x :: xs => .ok (xs.foldl (fun acc y => if pyGt y acc then y else acc) x)

/-- Model of `rdd.isEmpty()` in pyspark. -/
def rddIsEmpty (elems : List PyVal) : Bool := elems.isEmpty

/-- The runtime argument of `as_h2o_frame`: a structured `DataFrame`
(opaque contents), an `RDD` modelled by its list of elements, or any
other Python object (neither `isinstance` test matches). -/
inductive SparkData where
  | dataFrame (tag : String)
  | rdd (elems : List PyVal)
  | other (v : PyVal)
  deriving DecidableEq, Repr

/-- Embedding of `_is_of_simple_type(rdd)` from `context.py` lines 48–55: raise unless
the argument is an RDD, then test whether its first element is one of the
simple types.  `rdd.first()` raises on an empty RDD before the test. -/
def _is_of_simple_type : SparkData → Except PyErr Bool
  | .rdd elems =>
    match rddFirst elems with
    | .error e => .error e
    | .ok first => .ok (isSimple first)
  | _ => .error (.valueError "rdd is not of type pyspark.rdd.RDD")

/-- Embedding of `_get_first(rdd)` from `context.py` lines 57–61: raise
`ValueError` on an empty RDD, otherwise return the first element.
It is only ever called on values that passed `_is_of_simple_type`, hence
on RDDs, so it is modelled on the element list. -/
def _get_first (elems : List PyVal) : Except PyErr PyVal :=
  if rddIsEmpty elems then .error (.valueError "rdd is empty")
  else rddFirst elems

/-- The six conversion routines `as_h2o_frame` can dispatch to: the five
`FrameConversions` converters plus the structured `DataFrame` converter. -/
inductive ConvCall where
  | fromDataFrame
  | fromRDDString
  | fromRDDBool
  | fromRDDLong
  | fromRDDFloat
  | fromComplexType
  deriving DecidableEq, Repr

/-- The Python return value of `as_h2o_frame`: the H2OFrame produced by
one of the converters (recorded by which converter built it, the frame data
itself living in the external engine), or an implicit `None` when control
falls off the end of the function body. -/
inductive PyRet where
  | h2oFrameOf (c : ConvCall)
  | pynone
  deriving DecidableEq, Repr

/-- Embedding of `H2OContext.as_h2o_frame(self, dataframe, framename=None)` from
`context.py` lines 175–206, returning the list of converter calls it made
together with its Python outcome.  The dispatch order is exactly that of
the source: `DataFrame` first; then, for an RDD of simple type,
`isinstance(first, str)`, `isinstance(first, bool)`,
`isinstance(dataframe.max(), int)`, `isinstance(first, float)`,
`isinstance(dataframe.max(), long)` (the max is recomputed, as in the
source); RDDs of non-simple type go to the complex-type converter;
any other argument falls off the end and returns `None`. -/
def as_h2o_frame (dataframe : SparkData) : List ConvCall × Except PyErr PyRet :=
  match dataframe with
  | .dataFrame _ => ([.fromDataFrame], .ok (.h2oFrameOf .fromDataFrame))
  | .rdd elems =>
    match _is_of_simple_type (.rdd elems) with
    | .error e => ([], .error e)
    | .ok simple =>
      if simple then
        match _get_first elems with
        | .error e => ([], .error e)
        | .ok first =>
          if isinstStr first then
            ([.fromRDDString], .ok (.h2oFrameOf .fromRDDString))
          else if isinstBool first then
            ([.fromRDDBool], .ok (.h2oFrameOf .fromRDDBool))
          else
            match rddMax elems with
            | .error e => ([], .error e)
            | .ok m =>
              if isinstInt m then
                ([.fromRDDLong], .ok (.h2oFrameOf .fromRDDLong))
              else if isinstFloat first then
                ([.fromRDDFloat], .ok (.h2oFrameOf .fromRDDFloat))
              else
                match rddMax elems with
                | .error e => ([], .error e)
                | .ok m2 =>
                  if isinstLong m2 then
                    ([], .error (.valueError "Numbers in RDD Too Big"))
                  else ([], .ok .pynone)
      else ([.fromComplexType], .ok (.h2oFrameOf .fromComplexType))
  | .other _ => ([], .ok .pynone)

/-- A native H2O vector as seen through py4j: the five boolean flags
`determine_java_vec_type` queries. -/
structure Vec where
  isCategorical : Bool
  isUUID : Bool
  isString : Bool
  isInt : Bool
  isTime : Bool
  deriving DecidableEq, Repr

/-- Embedding of `determine_java_vec_type(vec)` from `context.py` lines 14–28
(monkey-patched onto `H2OFrame`). -/
def determine_java_vec_type (vec : Vec) : String :=
  if vec.isCategorical then "enum"
  else if vec.isUUID then "uuid"
  else if vec.isString then "string"
  else if vec.isInt then
    if vec.isTime then "time" else "int"
  else "real"

/-- A JVM-side H2OFrame object handle: either the result of the remote
`hc._jhc.asH2OFrame(frame_id)` lookup, or a handle that was attached to
the Python frame earlier (by `from_java_h2o_frame`). -/
inductive JavaFrame where
  | remote (frame_id : String)
  | attached (tag : String)
  deriving DecidableEq, Repr

/-- A Python-side `H2OFrame` handle as `get_java_h2o_frame` sees it:
its `frame_id` and the optional `_java_frame` attribute
(`none` models `hasattr(self, _java_frame)` being false). -/
structure H2OFrameHandle where
  frame_id : String
  java_frame : Option JavaFrame
  deriving DecidableEq, Repr

/-- Remote py4j calls issued by the modelled methods. -/
inductive RemoteCall where
  | jhcAsH2OFrame (frame_id : String)
  | jhcAsDataFrame (jf : JavaFrame)
  deriving DecidableEq, Repr

/-- Embedding of `get_java_h2o_frame(self)` from `context.py` lines 31–35: return the
cached `_java_frame` when the attribute exists, otherwise issue the remote
`hc._jhc.asH2OFrame(self.frame_id)` call and return its result.  The
output is (remote calls issued, returned JVM frame, the handle after the
call); the method performs no attribute assignment, so the handle component
is the input handle. -/
def get_java_h2o_frame (fr : H2OFrameHandle) :
    List RemoteCall × JavaFrame × H2OFrameHandle :=
  match fr.java_frame with
  | some jf => ([], jf, fr)
  | none => ([.jhcAsH2OFrame fr.frame_id], .remote fr.frame_id, fr)

/-- The runtime argument of `as_spark_frame`: an `H2OFrame` handle or any
other Python value (the `isinstance(h2o_frame, H2OFrame)` test fails). -/
inductive SparkFrameInput where
  | h2oFrame (fr : H2OFrameHandle)
  | notFrame (v : PyVal)
  deriving DecidableEq, Repr

/-- The Python return value of `as_spark_frame`: a Spark `DataFrame`
wrapping the JVM dataframe converted from the given JVM frame, or the
implicit `None` when the argument is not an `H2OFrame`. -/
inductive SparkRet where
  | dataFrameOf (jf : JavaFrame)
  | pynone
  deriving DecidableEq, Repr

/-- Embedding of `H2OContext.as_spark_frame(self, h2o_frame, copy_metadata=True)` from
`context.py` lines 157–173, returning the remote calls issued and the
Python outcome.  When the argument is an `H2OFrame` it resolves the JVM
frame via `get_java_h2o_frame` and calls
`self._jhc.asDataFrame(j_h2o_frame, ...)`; otherwise control falls off the
end of the body and `None` is returned.  The body never reads
`copy_metadata`. -/
def as_spark_frame (h2o_frame : SparkFrameInput) (copy_metadata : Bool) :
    List RemoteCall × SparkRet :=
  match h2o_frame with
  | .h2oFrame fr =>
    let r := get_java_h2o_frame fr
    (r.1 ++ [.jhcAsDataFrame r.2.1], .dataFrameOf r.2.1)
  | .notFrame _ => ([], .pynone)

/-- The fields of a started `H2OContext` that `stop` and `__str__` can
observe: the client IP and port reported by the JVM context and the
configuration object (opaque). -/
structure H2OContextState where
  client_ip : String
  client_port : Nat
  conf_tag : String
  deriving DecidableEq, Repr

/-- Embedding of `H2OContext.stop(self)` from `context.py` lines 140–142: the body is a
single `warnings.warn` call (the `self._jhc.stop(False)` line is commented
out).  The result is the context state after the call paired with the list
of warnings emitted; no exception is raised. -/
def stop (hc : H2OContextState) :
    Except PyErr (H2OContextState × List String) :=
  .ok (hc, ["H2OContext stopping is not yet supported..."])

/-- Embedding of `H2OContext.__str__(self)` from `context.py` lines 144–145:
`"H2OContext: ip={}, port={} (open UI at http://{}:{} )".format(ip, port, ip, port)`.
Note the space between the port and the closing parenthesis in the
source format string. -/
def h2oContextStr (hc : H2OContextState) : String :=
  "H2OContext: ip=" ++ hc.client_ip ++ ", port=" ++ toString hc.client_port
    ++ " (open UI at http://" ++ hc.client_ip ++ ":"
    ++ toString hc.client_port ++ " )"

/-- A live `SparkContext` handle (opaque to this bridge). -/
structure SparkContextH where
  tag : String
  deriving DecidableEq, Repr

/-- Embedding of `H2OContext.getOrCreate(spark_context, conf=None)` from `context.py`
lines 91–111.  The body first constructs a fresh `H2OContext` (line 102;
its side effects run inside the external engines), then executes
`self._sqlContext = SQLContext.getOrCreate(self._sc)` (line 105) — but
`self` is not a bound name inside this `@staticmethod`, so evaluating the
right-hand side raises `NameError` on every call; no context is ever
returned and no registry of existing contexts exists anywhere in the
module. -/
def getOrCreate (spark_context : SparkContextH) (conf : Option String) :
    Except PyErr H2OContextState :=
  .error (.nameError "global name self is not defined")

/-- The four simple element types `as_h2o_frame` has a dedicated RDD
converter for: text, boolean, bounded integer, floating point. -/
inductive SimpleTy where
  | tstr
  | tbool
  | tint
  | tfloat
  deriving DecidableEq, Repr

/-- Membership of a Python value in one of the four simple element types;
a bounded integer must lie in the Python 2 machine-int range
`[-2^63, 2^63 - 1]` (a value outside it would be a `long` at runtime). -/
def matchesTy : SimpleTy → PyVal → Bool
  | .tstr, .pystr _ => true
  | .tbool, .pybool _ => true
  | .tint, .pyint n => decide (-(2 ^ 63 : Int) ≤ n ∧ n < 2 ^ 63)
  | .tfloat, .pyfloat _ => true
  | _, _ => false

/-- The element-type-specific converter matching each simple element type,
as named in `FrameConversions`. -/
def convOf : SimpleTy → ConvCall
  | .tstr => .fromRDDString
  | .tbool => .fromRDDBool
  | .tint => .fromRDDLong
  | .tfloat => .fromRDDFloat

/-! Theorems. -/

/-- Unfolding of `as_h2o_frame` on a non-empty RDD: the first element
decides the simple-type test and the string, boolean and float branches,
and the running maximum of the elements decides the integer and long
branches (computed twice, as in the source). -/
theorem as_h2o_frame_rdd_cons (x : PyVal) (xs : List PyVal) :
    as_h2o_frame (.rdd (x :: xs)) =
      (if isSimple x then
        if isinstStr x then
          ([.fromRDDString], .ok (.h2oFrameOf .fromRDDString))
        else if isinstBool x then
          ([.fromRDDBool], .ok (.h2oFrameOf .fromRDDBool))
        else
          if isinstInt (xs.foldl (fun acc y => if pyGt y acc then y else acc) x) then
            ([.fromRDDLong], .ok (.h2oFrameOf .fromRDDLong))
          else if isinstFloat x then
            ([.fromRDDFloat], .ok (.h2oFrameOf .fromRDDFloat))
          else if isinstLong (xs.foldl (fun acc y => if pyGt y acc then y else acc) x) then
            ([], .error (.valueError "Numbers in RDD Too Big"))
          else ([], .ok .pynone)
      else ([.fromComplexType], .ok (.h2oFrameOf .fromComplexType))) := rfl

/-- The running maximum used by `rddMax` is built out of elements of the
list, so any property shared by the seed and all elements holds of it. -/
theorem foldl_max_prop (p : PyVal → Prop) (x : PyVal) (xs : List PyVal)
    (hx : p x) (hxs : ∀ v ∈ xs, p v) :
    p (xs.foldl (fun acc y => if pyGt y acc then y else acc) x) := by
  induction xs generalizing x with
  | nil => exact hx
  | cons y ys ih =>
    simp only [List.foldl_cons]
    refine ih _ ?_ (fun v hv => hxs v (List.mem_cons_of_mem y hv))
    by_cases h : pyGt y x = true
    · simpa [h] using hxs y (List.mem_cons_self y ys)
    · simpa [h] using hx

/-- A value of the bounded-integer simple type is a `pyint`. -/
theorem matchesTy_tint_shape {v : PyVal} (h : matchesTy .tint v = true) :
    ∃ k, v = PyVal.pyint k := by
  cases v with
  | pyint k => exact ⟨k, rfl⟩
  | pystr s => simp [matchesTy] at h
  | pybool b => simp [matchesTy] at h
  | pylong n => simp [matchesTy] at h
  | pyfloat w => simp [matchesTy] at h
  | pyobj t => simp [matchesTy] at h

/-- A value of the floating-point simple type is a `pyfloat`. -/
theorem matchesTy_tfloat_shape {v : PyVal} (h : matchesTy .tfloat v = true) :
    ∃ k, v = PyVal.pyfloat k := by
  cases v with
  | pyfloat k => exact ⟨k, rfl⟩
  | pystr s => simp [matchesTy] at h
  | pybool b => simp [matchesTy] at h
  | pyint n => simp [matchesTy] at h
  | pylong n => simp [matchesTy] at h
  | pyobj t => simp [matchesTy] at h

/-- Claim C1: the spec demands that `getOrCreate` return the same
process-wide singleton analytics context on a second call with the same
computation context.  The code has no such behaviour: the static method
body constructs a fresh context and then reads the unbound name `self`,
so every call raises `NameError` and no call ever returns a context. -/
theorem getOrCreate_always_raises (sc : SparkContextH) (conf : Option String) :
    getOrCreate sc conf = .error (.nameError "global name self is not defined") :=
  rfl

/-- Claim C2: on a non-empty homogeneous RDD whose element type is one of
the supported primitives (text, boolean, bounded integer in range,
floating point), `as_h2o_frame` dispatches to the converter matching that
element type and calls it exactly once (the call trace is exactly that one
converter call). -/
theorem as_h2o_frame_dispatch_once (ty : SimpleTy) (elems : List PyVal)
    (hne : elems ≠ [])
    (hhom : ∀ v ∈ elems, matchesTy ty v = true) :
    as_h2o_frame (.rdd elems) =
      ([convOf ty], .ok (.h2oFrameOf (convOf ty))) := by
  obtain ⟨x, xs, rfl⟩ : ∃ y ys, elems = y :: ys := by
    cases elems with
    | nil => exact absurd rfl hne
    | cons y ys => exact ⟨y, ys, rfl⟩
  have hx := hhom x (List.mem_cons_self x xs)
  rw [as_h2o_frame_rdd_cons]
  cases ty with
  | tstr =>
    obtain ⟨s, rfl⟩ : ∃ s, x = PyVal.pystr s := by
      cases x <;> simp [matchesTy] at hx <;> exact ⟨_, rfl⟩
    simp [isSimple, isinstStr, convOf]
  | tbool =>
    obtain ⟨b, rfl⟩ : ∃ b, x = PyVal.pybool b := by
      cases x <;> simp [matchesTy] at hx <;> exact ⟨_, rfl⟩
    simp [isSimple, isinstStr, isinstBool, isinstInt, isinstLong, isinstFloat, convOf]
  | tint =>
    obtain ⟨n, rfl⟩ := matchesTy_tint_shape hx
    have hmax : ∃ k, (xs.foldl (fun acc y => if pyGt y acc then y else acc)
        (PyVal.pyint n)) = PyVal.pyint k :=
      foldl_max_prop (fun v => ∃ k, v = PyVal.pyint k) _ xs ⟨n, rfl⟩
        (fun v hv => matchesTy_tint_shape (hhom v (List.mem_cons_of_mem _ hv)))
    obtain ⟨k, hk⟩ := hmax
    simp [isSimple, isinstStr, isinstBool, isinstInt, isinstLong, isinstFloat,
      convOf, hk]
  | tfloat =>
    obtain ⟨w, rfl⟩ := matchesTy_tfloat_shape hx
    have hmax : ∃ k, (xs.foldl (fun acc y => if pyGt y acc then y else acc)
        (PyVal.pyfloat w)) = PyVal.pyfloat k :=
      foldl_max_prop (fun v => ∃ k, v = PyVal.pyfloat k) _ xs ⟨w, rfl⟩
        (fun v hv => matchesTy_tfloat_shape (hhom v (List.mem_cons_of_mem _ hv)))
    obtain ⟨k, hk⟩ := hmax
    simp [isSimple, isinstStr, isinstBool, isinstInt, isinstLong, isinstFloat,
      convOf, hk]

/-- Witness for C2 at the concrete one-element text RDD `["a"]`. -/
theorem as_h2o_frame_dispatch_once_witness :
    (([PyVal.pystr "a"] : List PyVal) ≠ [] ∧
      ∀ v ∈ ([PyVal.pystr "a"] : List PyVal), matchesTy .tstr v = true) ∧
    as_h2o_frame (.rdd [PyVal.pystr "a"]) =
      ([convOf .tstr], .ok (.h2oFrameOf (convOf .tstr))) :=
  ⟨⟨by decide, by decide⟩,
    as_h2o_frame_dispatch_once .tstr [PyVal.pystr "a"] (by decide) (by decide)⟩

/-- Claim C3: on a non-empty RDD of arbitrary-precision integers
(`long` values) whose maximum exceeds the bounded-integer range,
`as_h2o_frame` raises `ValueError` with the range message and its
converter-call trace is empty. -/
theorem as_h2o_frame_long_overflow (elems : List PyVal)
    (hne : elems ≠ [])
    (hlong : ∀ v ∈ elems, ∃ n, v = PyVal.pylong n)
    (hbig : ∃ v ∈ elems, ∃ n, v = PyVal.pylong n ∧ (2 ^ 63 - 1 : Int) < n) :
    as_h2o_frame (.rdd elems) =
      ([], .error (.valueError "Numbers in RDD Too Big")) := by
  obtain ⟨x, xs, rfl⟩ : ∃ y ys, elems = y :: ys := by
    cases elems with
    | nil => exact absurd rfl hne
    | cons y ys => exact ⟨y, ys, rfl⟩
  obtain ⟨n, rfl⟩ := hlong x (List.mem_cons_self x xs)
  have hmax : ∃ k, (xs.foldl (fun acc y => if pyGt y acc then y else acc)
      (PyVal.pylong n)) = PyVal.pylong k :=
    foldl_max_prop (fun v => ∃ k, v = PyVal.pylong k) _ xs ⟨n, rfl⟩
      (fun v hv => hlong v (List.mem_cons_of_mem _ hv))
  obtain ⟨k, hk⟩ := hmax
  rw [as_h2o_frame_rdd_cons]
  simp [isSimple, isinstStr, isinstBool, isinstInt, isinstLong, isinstFloat, hk]

/-- Witness for C3 at the concrete RDD holding the single long `2^63`. -/
theorem as_h2o_frame_long_overflow_witness :
    (([PyVal.pylong (2 ^ 63)] : List PyVal) ≠ [] ∧
      (∀ v ∈ ([PyVal.pylong (2 ^ 63)] : List PyVal), ∃ n, v = PyVal.pylong n) ∧
      ∃ v ∈ ([PyVal.pylong (2 ^ 63)] : List PyVal),
        ∃ n, v = PyVal.pylong n ∧ (2 ^ 63 - 1 : Int) < n) ∧
    as_h2o_frame (.rdd [PyVal.pylong (2 ^ 63)]) =
      ([], .error (.valueError "Numbers in RDD Too Big")) :=
  ⟨⟨by decide,
    fun v hv => ⟨2 ^ 63, by simpa using hv⟩,
    ⟨PyVal.pylong (2 ^ 63), by simp, 2 ^ 63, rfl, by norm_num⟩⟩,
   as_h2o_frame_long_overflow [PyVal.pylong (2 ^ 63)] (by decide)
     (fun v hv => ⟨2 ^ 63, by simpa using hv⟩)
     ⟨PyVal.pylong (2 ^ 63), by simp, 2 ^ 63, rfl, by norm_num⟩⟩

/-- Claim C4: on the empty RDD, `as_h2o_frame` raises `ValueError`
(from `rdd.first()` inside `_is_of_simple_type`) with an empty
converter-call trace, so no converter is invoked. -/
theorem as_h2o_frame_empty_rdd :
    as_h2o_frame (.rdd []) = ([], .error (.valueError "RDD is empty")) := rfl

/-- Claim C5: `determine_java_vec_type` maps a categorical column to
`"enum"`, a UUID column to `"uuid"`, a string column to `"string"`, an
integer time column to `"time"`, an integer non-time column to `"int"`,
and any other column to `"real"` — all six branches. -/
theorem determine_java_vec_type_branches (v : Vec) :
    (v.isCategorical = true → determine_java_vec_type v = "enum") ∧
    (v.isCategorical = false → v.isUUID = true →
      determine_java_vec_type v = "uuid") ∧
    (v.isCategorical = false → v.isUUID = false → v.isString = true →
      determine_java_vec_type v = "string") ∧
    (v.isCategorical = false → v.isUUID = false → v.isString = false →
      v.isInt = true → v.isTime = true →
      determine_java_vec_type v = "time") ∧
    (v.isCategorical = false → v.isUUID = false → v.isString = false →
      v.isInt = true → v.isTime = false →
      determine_java_vec_type v = "int") ∧
    (v.isCategorical = false → v.isUUID = false → v.isString = false →
      v.isInt = false → determine_java_vec_type v = "real") := by
  obtain ⟨c, u, s, i, t⟩ := v
  cases c <;> cases u <;> cases s <;> cases i <;> cases t <;>
    simp [determine_java_vec_type]

/-- Witness for C5: one concrete column per branch. -/
theorem determine_java_vec_type_branches_witness :
    determine_java_vec_type ⟨true, false, false, false, false⟩ = "enum" ∧
    determine_java_vec_type ⟨false, true, false, false, false⟩ = "uuid" ∧
    determine_java_vec_type ⟨false, false, true, false, false⟩ = "string" ∧
    determine_java_vec_type ⟨false, false, false, true, true⟩ = "time" ∧
    determine_java_vec_type ⟨false, false, false, true, false⟩ = "int" ∧
    determine_java_vec_type ⟨false, false, false, false, false⟩ = "real" :=
  ⟨(determine_java_vec_type_branches _).1 rfl,
   (determine_java_vec_type_branches _).2.1 rfl rfl,
   (determine_java_vec_type_branches _).2.2.1 rfl rfl rfl,
   (determine_java_vec_type_branches _).2.2.2.1 rfl rfl rfl rfl rfl,
   (determine_java_vec_type_branches _).2.2.2.2.1 rfl rfl rfl rfl rfl,
   (determine_java_vec_type_branches _).2.2.2.2.2 rfl rfl rfl rfl⟩

/-- Claim C6: `stop` never raises, returns the context state unchanged,
and emits exactly the one unsupported-operation warning. -/
theorem stop_only_warns (hc : H2OContextState) :
    stop hc = .ok (hc, ["H2OContext stopping is not yet supported..."]) := rfl

/-- Counterexample to Claim C7 as stated: on a handle with no cached
reference, `get_java_h2o_frame` does not cache the remotely fetched frame
on the handle — after the call the cache attribute still differs from
`some` of the returned frame. -/
theorem get_java_h2o_frame_not_caching :
    ¬ ((get_java_h2o_frame ⟨"fr0", none⟩).2.2.java_frame =
        some (get_java_h2o_frame ⟨"fr0", none⟩).2.1) := by decide

/-- Claim C7 (amended): `get_java_h2o_frame` returns the cached reference
with no remote call when one exists, and otherwise issues exactly one
remote convert-handle call and returns its result, leaving the handle
unchanged (in particular the result is not cached on the handle). -/
theorem get_java_h2o_frame_cached_or_remote (fr : H2OFrameHandle) :
    (∀ jf, fr.java_frame = some jf → get_java_h2o_frame fr = ([], jf, fr)) ∧
    (fr.java_frame = none →
      get_java_h2o_frame fr =
        ([.jhcAsH2OFrame fr.frame_id], .remote fr.frame_id, fr)) := by
  constructor
  · intro jf h
    simp [get_java_h2o_frame, h]
  · intro h
    simp [get_java_h2o_frame, h]

/-- Witness for the amended C7: one handle with a cached frame, one
without. -/
theorem get_java_h2o_frame_cached_or_remote_witness :
    get_java_h2o_frame ⟨"a", some (.attached "x")⟩ =
      ([], .attached "x", ⟨"a", some (.attached "x")⟩) ∧
    get_java_h2o_frame ⟨"b", none⟩ =
      ([.jhcAsH2OFrame "b"], .remote "b", ⟨"b", none⟩) :=
  ⟨(get_java_h2o_frame_cached_or_remote _).1 _ rfl,
   (get_java_h2o_frame_cached_or_remote _).2 rfl⟩

/-- Counterexample to Claim C8 as stated: the string form of a started
context is not character-for-character the claimed
`"H2OContext: ip=<ip>, port=<port> (open UI at http://<ip>:<port>)"` —
the source format string has a space before the closing parenthesis. -/
theorem h2oContextStr_claimed_format_false :
    ¬ (h2oContextStr ⟨"10.0.0.1", 54321, "conf"⟩ =
        "H2OContext: ip=10.0.0.1, port=54321 (open UI at http://10.0.0.1:54321)") := by
  decide

/-- Claim C8 (amended): the string form of a started context is
`"H2OContext: ip=<ip>, port=<port> (open UI at http://<ip>:<port> )"`,
with a space before the closing parenthesis. -/
theorem h2oContextStr_format (ip : String) (port : Nat) (conf : String) :
    h2oContextStr ⟨ip, port, conf⟩ =
      "H2OContext: ip=" ++ ip ++ ", port=" ++ toString port ++
        " (open UI at http://" ++ ip ++ ":" ++ toString port ++ " )" := rfl

/-- Claim C9: on any argument that is not an `H2OFrame`, `as_spark_frame`
returns `None` without raising and issues no remote call, whatever the
`copy_metadata` flag. -/
theorem as_spark_frame_non_frame (v : PyVal) (cm : Bool) :
    as_spark_frame (.notFrame v) cm = ([], .pynone) := rfl

/-- Claim C10: the behaviour of `as_spark_frame` is independent of the
`copy_metadata` argument — the parameter is never read, so any two runs
differing only in it produce identical remote calls and results. -/
theorem as_spark_frame_copy_metadata_irrelevant
    (inp : SparkFrameInput) (b₁ b₂ : Bool) :
    as_spark_frame inp b₁ = as_spark_frame inp b₂ := rfl

end PySparkling
